import Mathlib

/-!
Shallow embedding of the Dreammaker pipeline (src/backend.py, src/app.py).

The backend wraps four external inference services behind stage adapters
(`transcribe_audio_func`, `detect_emotion_func`, `generate_image_prompt_func`,
`generate_image_func`) and composes them in the `/dream-to-image` endpoint
(`dream_to_image`).  The Streamlit front end (`app.py`) runs the same stages
with explicit emptiness gates (`app_pipeline`).

External effects are made explicit:
- credential sources (`Secrets`) model `st.secrets` and `os.environ`;
- each upstream HTTP exchange is an ambient `HttpResponse` (for the two
  `httpx` adapters) or an oracle `ChatRequest → Except Err String` (for the
  two Groq SDK adapters; the SDK raises its own status error on a non-200
  response, which the adapter code does not catch, so the oracle returns
  `Except` and the adapter propagates errors unmodified);
- file-system operations (temporary files) are tracked as booleans, with
  `os.remove` modelled as succeeding.

Machine strings/bytes: response bodies are `String` (for `response.text`),
parsed JSON objects are string association lists, raw image bytes are
`List Nat` with values below 256.
-/

namespace Dreammaker

/-- Errors surfaced by the backend: `RuntimeError` from `get_secret` (a
missing credential), `HTTPException(status, detail)` holding a non-200
upstream status and body, and the `TypeError` raised by Python when the
Streamlit wrappers concatenate a `Payload` object onto a string. -/
inductive Err where
  | missingCredential (name : String)
  | upstream (status : Nat) (body : String)
  | typeError (msg : String)
deriving DecidableEq, Repr

/-- One message of a chat-completion request body. -/
structure ChatMessage where
  role : String
  content : String
deriving DecidableEq, Repr

/-- The request shape sent to the chat-completion service:
`model`, `messages`, `max_tokens`, `temperature`. -/
structure ChatRequest where
  model : String
  messages : List ChatMessage
  max_tokens : Nat
  temperature : ℚ
deriving DecidableEq, Repr

/-- An `httpx` response as the adapters view it: `status_code`,
`text` (the body decoded as text), `json()` (modelled as a string-valued
association list), and `content` (the raw body bytes). -/
structure HttpResponse where
  status_code : Nat
  text : String
  json : List (String × String)
  content : List Nat
deriving DecidableEq, Repr

/-- The uploaded audio clip as the transcriber consumes it. -/
structure UploadFile where
  filename : String
  content_type : String
  bytes : List Nat
deriving DecidableEq, Repr

/-- The two credential sources of `get_secret`: the module flag
`use_streamlit_secrets`, the `st.secrets` store and `os.environ`. -/
structure Secrets where
  useStreamlitSecrets : Bool
  stSecrets : String → Option String
  osEnviron : String → Option String

/-- src/backend.py lines 33-39.  `if use_streamlit_secrets and name in
st.secrets: return st.secrets[name]`, then `value = os.environ.get(name)`,
raising `RuntimeError` when `not value` (absent or empty). -/
def get_secret (s : Secrets) (name : String) : Except Err String :=
  match (if s.useStreamlitSecrets then s.stSecrets name else none) with
  | some v => Except.ok v
  | none =>
    match s.osEnviron name with
    | some v => if v = "" then Except.error (Err.missingCredential name) else Except.ok v
    | none => Except.error (Err.missingCredential name)

/-- A sequence of resolver calls, each evaluated against the credential
state current at that call; `get_secret` keeps no state between calls. -/
def resolve_sequence (states : List Secrets) (name : String) :
    List (Except Err String) :=
  states.map (fun s => get_secret s name)

/-- Lookup of a key in a parsed JSON object (first binding wins). -/
def jsonFind : List (String × String) → String → Option String
  | [], _ => none
  | (k, v) :: rest, key => if k = key then some v else jsonFind rest key

/-- Python `dict.get(key, default)` on a parsed JSON object. -/
def jsonGet (j : List (String × String)) (key d : String) : String :=
  (jsonFind j key).getD d

/-- The whitespace characters removed by Python `str.strip()`. -/
def pyIsSpace (c : Char) : Bool :=
  c = ' ' || c = '\t' || c = '\n' || c = '\r' || c = '\x0b' || c = '\x0c'

/-- Python `str.strip()`: drop leading and trailing whitespace. -/
def pyStrip (s : String) : String :=
  String.mk (((s.data.dropWhile pyIsSpace).reverse.dropWhile pyIsSpace).reverse)

/-- Python `str.lower()` (ASCII case folding, which covers the category
words and data URIs this backend handles). -/
def pyLower (s : String) : String :=
  String.mk (s.data.map Char.toLower)

/-- The standard base64 alphabet used by Python `base64.b64encode`. -/
def b64Alphabet : List Char :=
  ['A', 'B', 'C', 'D', 'E', 'F', 'G', 'H', 'I', 'J', 'K', 'L', 'M',
   'N', 'O', 'P', 'Q', 'R', 'S', 'T', 'U', 'V', 'W', 'X', 'Y', 'Z',
   'a', 'b', 'c', 'd', 'e', 'f', 'g', 'h', 'i', 'j', 'k', 'l', 'm',
   'n', 'o', 'p', 'q', 'r', 's', 't', 'u', 'v', 'w', 'x', 'y', 'z',
   '0', '1', '2', '3', '4', '5', '6', '7', '8', '9', '+', '/']

/-- The alphabet character for a 6-bit value. -/
def encChar (n : Nat) : Char :=
  b64Alphabet.getD n '='

/-- Position of a character in a list of characters. -/
def charIndex (c : Char) : List Char → Option Nat
  | [] => none
  | x :: xs => if x = c then some 0 else (charIndex c xs).map (· + 1)

/-- The 6-bit value of an alphabet character. -/
def decChar (c : Char) : Option Nat :=
  charIndex c b64Alphabet

/-- Standard base64 encoding of a byte list (Python `base64.b64encode`):
three bytes become four sextet characters, with `=` padding for a final
group of one or two bytes. -/
def b64encode : List Nat → List Char
  | [] => []
  | [a] =>
    [encChar (a / 4), encChar (a % 4 * 16), '=', '=']
  | [a, b] =>
    [encChar (a / 4), encChar (a % 4 * 16 + b / 16), encChar (b % 16 * 4), '=']
  | a :: b :: c :: rest =>
    encChar (a / 4) :: encChar (a % 4 * 16 + b / 16) ::
      encChar (b % 16 * 4 + c / 64) :: encChar (c % 64) :: b64encode rest

/-- Base64 decoding of a character list (Python `base64.b64decode`):
inverse of `b64encode`, reading four characters per group and honouring
`=` padding. -/
def b64decode : List Char → Option (List Nat)
  | [] => some []
  | c1 :: c2 :: c3 :: c4 :: rest =>
    match decChar c1, decChar c2 with
    | some a, some b =>
      if c3 = '=' then
        some [a * 4 + b / 16]
      else
        match decChar c3 with
        | some c =>
          if c4 = '=' then
            some [a * 4 + b / 16, b % 16 * 16 + c / 4]
          else
            match decChar c4 with
            | some d =>
              match b64decode rest with
              | some bytes =>
                some ((a * 4 + b / 16) :: (b % 16 * 16 + c / 4) :: (c % 4 * 64 + d) :: bytes)
              | none => none
            | none => none
        | none => none
    | _, _ => none
  | _ => none

deriving instance DecidableEq for Except

/-- src/backend.py line 92: system message of the emotion request. -/
def emotionSystemContent : String :=
  "Tu es un assistant expert en analyse d\x27émotions de rêves."

/-- src/backend.py lines 84-87: user prompt of the emotion request,
embedding the transcript verbatim. -/
def emotionUserContent (text : String) : String :=
  "Lis ce rêve et classe-le dans l\x27une de ces catégories : heureux, stressant, neutre, cauchemar, étrange. Réponds uniquement par la catégorie.\nRêve :\n" ++ text

/-- src/backend.py line 113: system message of the prompt-generation request. -/
def promptGenSystemContent : String :=
  "Tu es un assistant expert en prompts d’images oniriques."

/-- src/backend.py lines 105-108: user prompt of the prompt-generation
request, embedding the transcript verbatim. -/
def promptGenUserContent (text : String) : String :=
  "Lis ce rêve et écris un prompt descriptif pour générer une image onirique qui l’illustre. Sois concis et imagé.\nRêve :\n" ++ text

/-- src/backend.py lines 89-97: the completion request issued by
`detect_emotion_func` (model, system/user messages, `max_tokens=10`,
`temperature=0`). -/
def emotionRequest (text : String) : ChatRequest :=
  { model := "mixtral-8x7b-32768",
    messages :=
      [{ role := "system", content := emotionSystemContent },
       { role := "user", content := emotionUserContent text }],
    max_tokens := 10,
    temperature := 0 }

/-- src/backend.py lines 110-118: the completion request issued by
`generate_image_prompt_func` (same model and message shape,
`max_tokens=60`, `temperature=0.7`). -/
def promptGenRequest (text : String) : ChatRequest :=
  { model := "mixtral-8x7b-32768",
    messages :=
      [{ role := "system", content := promptGenSystemContent },
       { role := "user", content := promptGenUserContent text }],
    max_tokens := 60,
    temperature := 0.7 }

/-- Outcome of `transcribe_audio_func`: the returned transcription (or the
raised error), the number of HTTP posts issued, and whether the adapter
temporary file was created and removed. -/
structure TranscribeOutcome where
  result : Except Err String
  posts : Nat
  tmpCreated : Bool
  tmpRemoved : Bool
deriving DecidableEq, Repr

/-- src/backend.py lines 42-77.  Resolves `OPENAI_API_KEY` first, then
writes the uploaded bytes to a temporary file, posts them to the
speech-to-text endpoint, raises `HTTPException(status, text)` on a non-200
status, and otherwise returns `response.json().get("text", "")`; the
`finally` block removes the temporary file on every path after its
creation (removal is modelled as succeeding). -/
def transcribe_audio_func (s : Secrets) (file : UploadFile)
    (response : HttpResponse) : TranscribeOutcome :=
  match get_secret s "OPENAI_API_KEY" with
  | Except.error e =>
    { result := Except.error e, posts := 0, tmpCreated := false, tmpRemoved := false }
  | Except.ok _ =>
    if response.status_code ≠ 200 then
      { result := Except.error (Err.upstream response.status_code response.text),
        posts := 1, tmpCreated := true, tmpRemoved := true }
    else
      { result := Except.ok (jsonGet response.json "text" ""),
        posts := 1, tmpCreated := true, tmpRemoved := true }

/-- Outcome of a Groq-backed stage: the stage result and the list of
completion requests issued upstream, in order. -/
structure GroqOutcome where
  result : Except Err String
  requests : List ChatRequest
deriving DecidableEq, Repr

/-- src/backend.py lines 80-98.  Resolves `GROQ_API_KEY`, issues one
completion request and returns the returned content stripped and
lower-cased; `groq` is the SDK oracle, whose status errors propagate
uncaught. -/
def detect_emotion_func (s : Secrets) (groq : ChatRequest → Except Err String)
    (text : String) : GroqOutcome :=
  match get_secret s "GROQ_API_KEY" with
  | Except.error e => { result := Except.error e, requests := [] }
  | Except.ok _ =>
    let req := emotionRequest text
    { result := (groq req).map (fun content => pyLower (pyStrip content)),
      requests := [req] }

/-- src/backend.py lines 101-119.  Resolves `GROQ_API_KEY`, issues one
completion request and returns the returned content stripped. -/
def generate_image_prompt_func (s : Secrets)
    (groq : ChatRequest → Except Err String) (text : String) : GroqOutcome :=
  match get_secret s "GROQ_API_KEY" with
  | Except.error e => { result := Except.error e, requests := [] }
  | Except.ok _ =>
    let req := promptGenRequest text
    { result := (groq req).map (fun content => pyStrip content),
      requests := [req] }

/-- Outcome of `generate_image_func`: the returned data URI (or the raised
error) and the number of HTTP posts issued. -/
structure ImageOutcome where
  result : Except Err String
  posts : Nat
deriving DecidableEq, Repr

/-- src/backend.py lines 143-154.  Resolves `CLIPDROP_API_KEY` first, posts
the prompt, raises `HTTPException(status, text)` on a non-200 status, and
otherwise base64-encodes `response.content` into a
`data:image/png;base64,` URI. -/
def generate_image_func (s : Secrets) (response : HttpResponse)
    (prompt : String) : ImageOutcome :=
  match get_secret s "CLIPDROP_API_KEY" with
  | Except.error e => { result := Except.error e, posts := 0 }
  | Except.ok _ =>
    if response.status_code ≠ 200 then
      { result := Except.error (Err.upstream response.status_code response.text),
        posts := 1 }
    else
      { result := Except.ok ("data:image/png;base64," ++ String.mk (b64encode response.content)),
        posts := 1 }

/-- The ambient external world of one pipeline invocation: the credential
sources, the speech-to-text response, the Groq SDK oracle, and the
ClipDrop response for each prompt. -/
structure World where
  secrets : Secrets
  stt : HttpResponse
  groq : ChatRequest → Except Err String
  clipdrop : String → HttpResponse

/-- The four stage adapters, used to record which stages a pipeline run
actually invoked, in order. -/
inductive StageTag where
  | transcriber
  | emotionClassifier
  | promptGenerator
  | imageSynthesizer
deriving DecidableEq, Repr

/-- The aggregate returned by the `/dream-to-image` endpoint. -/
structure DreamResult where
  transcription : String
  emotion : String
  prompt : String
  image : String
deriving DecidableEq, Repr

/-- Outcome of one `/dream-to-image` invocation: the returned aggregate (or
the first raised error) and the stages whose adapter bodies ran. -/
structure PipelineOutcome where
  result : Except Err DreamResult
  stages : List StageTag
deriving DecidableEq, Repr

/-- src/backend.py lines 177-191.  The endpoint awaits the four stage
adapters in fixed order with no emptiness checks; an exception from any
stage propagates immediately, aborting the rest. -/
def dream_to_image (w : World) (file : UploadFile) : PipelineOutcome :=
  match (transcribe_audio_func w.secrets file w.stt).result with
  | Except.error e => { result := Except.error e, stages := [StageTag.transcriber] }
  | Except.ok text =>
    match (detect_emotion_func w.secrets w.groq text).result with
    | Except.error e =>
      { result := Except.error e,
        stages := [StageTag.transcriber, StageTag.emotionClassifier] }
    | Except.ok emotion =>
      match (generate_image_prompt_func w.secrets w.groq text).result with
      | Except.error e =>
        { result := Except.error e,
          stages := [StageTag.transcriber, StageTag.emotionClassifier,
                     StageTag.promptGenerator] }
      | Except.ok prompt =>
        match (generate_image_func w.secrets (w.clipdrop prompt) prompt).result with
        | Except.error e =>
          { result := Except.error e,
            stages := [StageTag.transcriber, StageTag.emotionClassifier,
                       StageTag.promptGenerator, StageTag.imageSynthesizer] }
        | Except.ok image =>
          { result := Except.ok
              { transcription := text, emotion := emotion, prompt := prompt, image := image },
            stages := [StageTag.transcriber, StageTag.emotionClassifier,
                       StageTag.promptGenerator, StageTag.imageSynthesizer] }

/-- The `TypeError` Python raises inside `detect_emotion_func` and
`generate_image_prompt_func` when src/app.py passes a `Payload` object
where the backend expects a string: the fixed template is concatenated
onto the transcript with `+`, and `str + Payload` is a type error. -/
def payloadConcatError : Err :=
  Err.typeError "can only concatenate str (not \x22Payload\x22) to str"

/-- src/app.py lines 54-57 with src/backend.py lines 80-87: the app wraps
the transcript in a `Payload` before calling `detect_emotion_func`, so the
call resolves `GROQ_API_KEY` and then raises `TypeError` at the template
concatenation, before any completion request is issued. -/
def app_emotion_stage (s : Secrets) : Except Err String :=
  match get_secret s "GROQ_API_KEY" with
  | Except.error e => Except.error e
  | Except.ok _ => Except.error payloadConcatError

/-- src/app.py lines 59-62 with src/backend.py lines 101-108: the same
`Payload` mismatch in the prompt-generation wrapper. -/
def app_prompt_stage (s : Secrets) : Except Err String :=
  match get_secret s "GROQ_API_KEY" with
  | Except.error e => Except.error e
  | Except.ok _ => Except.error payloadConcatError

/-- What the Streamlit page ends up holding for one uploaded clip: the
transcription and the optional per-stage values it displays. -/
structure AppResult where
  transcription : String
  emotion : Option String
  prompt : Option String
  image : Option String
deriving DecidableEq, Repr

/-- Outcome of one interactive (src/app.py) pipeline run: the displayed
result (or the caught exception), the stages whose adapter bodies ran,
whether the temporary file backing the uploaded clip was removed by the
`finally` block, and whether the upload handle was closed. -/
structure AppOutcome where
  result : Except Err AppResult
  stages : List StageTag
  tmpRemoved : Bool
  handleClosed : Bool
deriving DecidableEq, Repr

/-- src/app.py lines 72-153.  The upload is written to a temporary file,
then: transcription runs first; an empty transcription skips every later
stage (`if transcription:`); otherwise the emotion and prompt wrappers run
(each failing with `TypeError` through the `Payload` mismatch, caught by
the `except` block); with a non-empty prompt the image wrapper is called,
but `generate_image_sync` returns the un-awaited coroutine of
`generate_image_func`, so that adapter body never runs and no image is
shown.  The outer `finally` block removes the temporary file on every exit
path, and the upload handle is closed by the inner `finally` of the
transcription wrapper. -/
def app_pipeline (w : World) (file : UploadFile) : AppOutcome :=
  match (transcribe_audio_func w.secrets file w.stt).result with
  | Except.error e =>
    { result := Except.error e, stages := [StageTag.transcriber],
      tmpRemoved := true, handleClosed := true }
  | Except.ok transcription =>
    if transcription = "" then
      { result := Except.ok
          { transcription := transcription, emotion := none, prompt := none, image := none },
        stages := [StageTag.transcriber], tmpRemoved := true, handleClosed := true }
    else
      match app_emotion_stage w.secrets with
      | Except.error e =>
        { result := Except.error e,
          stages := [StageTag.transcriber, StageTag.emotionClassifier],
          tmpRemoved := true, handleClosed := true }
      | Except.ok emotion =>
        match app_prompt_stage w.secrets with
        | Except.error e =>
          { result := Except.error e,
            stages := [StageTag.transcriber, StageTag.emotionClassifier,
                       StageTag.promptGenerator],
            tmpRemoved := true, handleClosed := true }
        | Except.ok prompt =>
          if prompt = "" then
            { result := Except.ok
                { transcription := transcription, emotion := some (pyLower emotion),
                  prompt := some prompt, image := none },
              stages := [StageTag.transcriber, StageTag.emotionClassifier,
                         StageTag.promptGenerator],
              tmpRemoved := true, handleClosed := true }
          else
            { result := Except.ok
                { transcription := transcription, emotion := some (pyLower emotion),
                  prompt := some prompt, image := none },
              stages := [StageTag.transcriber, StageTag.emotionClassifier,
                         StageTag.promptGenerator],
              tmpRemoved := true, handleClosed := true }

/-- Credential sources with every key present in the process environment. -/
def sampleSecrets : Secrets :=
  { useStreamlitSecrets := false, stSecrets := fun _ => none,
    osEnviron := fun _ => some "key" }

/-- Credential sources where only the image-synthesis key is missing. -/
def clipdropMissingSecrets : Secrets :=
  { useStreamlitSecrets := false, stSecrets := fun _ => none,
    osEnviron := fun n => if n = "CLIPDROP_API_KEY" then none else some "key" }

/-- A sample uploaded clip. -/
def sampleFile : UploadFile :=
  { filename := "reve.mp3", content_type := "audio/mpeg", bytes := [1, 2, 3] }

/-- A 200 speech-to-text response whose JSON body has no `text` field. -/
def ok200NoText : HttpResponse :=
  { status_code := 200, text := "{}", json := [], content := [] }

/-- A 200 speech-to-text response transcribing to `bonjour`. -/
def stt200Bonjour : HttpResponse :=
  { status_code := 200, text := "", json := [("text", "bonjour")], content := [] }

/-- A 500 upstream response with body `boom`. -/
def err500 : HttpResponse :=
  { status_code := 500, text := "boom", json := [], content := [] }

/-- A 200 ClipDrop response carrying three raw image bytes. -/
def clip200 : HttpResponse :=
  { status_code := 200, text := "", json := [], content := [77, 97, 255] }

/-- A Groq oracle answering every request with an empty completion. -/
def groqEmpty : ChatRequest → Except Err String := fun _ => Except.ok ""

/-- A Groq oracle answering every request with ` Reponse `. -/
def groqReponse : ChatRequest → Except Err String := fun _ => Except.ok " Reponse "

/-- A Groq oracle failing every request with a 502 status error. -/
def groqErr502 : ChatRequest → Except Err String :=
  fun _ => Except.error (Err.upstream 502 "bad gateway")

/-- A world whose transcription stage yields the empty transcript and whose
later stages all answer (the completion oracle returns empty text, so the
generated prompt is also empty). -/
def emptyTranscriptWorld : World :=
  { secrets := sampleSecrets, stt := ok200NoText, groq := groqEmpty,
    clipdrop := fun _ => clip200 }

/-- A world with a non-empty transcript, working Groq stages, a working
ClipDrop response, and only the image-synthesis credential missing. -/
def clipdropMissingWorld : World :=
  { secrets := clipdropMissingSecrets, stt := stt200Bonjour, groq := groqReponse,
    clipdrop := fun _ => clip200 }

/-- Credential sources with both stores empty. -/
def noSecrets : Secrets :=
  { useStreamlitSecrets := false, stSecrets := fun _ => none, osEnviron := fun _ => none }

/-- Credential sources where the interactive store and the environment hold
different values for every name. -/
def storeFirstSecrets : Secrets :=
  { useStreamlitSecrets := true, stSecrets := fun _ => some "fromstore",
    osEnviron := fun _ => some "fromenv" }

/-- Credential sources whose interactive store binds every name to the
empty string. -/
def storeEmptySecrets : Secrets :=
  { useStreamlitSecrets := true, stSecrets := fun _ => some "",
    osEnviron := fun _ => none }

/-- Credential sources whose environment binds every name to the empty
string, with the interactive store unavailable. -/
def envEmptySecrets : Secrets :=
  { useStreamlitSecrets := false, stSecrets := fun _ => none,
    osEnviron := fun _ => some "" }

/-- A Groq oracle answering every request with text that is not one of the
five emotion categories. -/
def groqBanana : ChatRequest → Except Err String := fun _ => Except.ok "  BANANA  "

/-- Decoding an alphabet character recovers its 6-bit value. -/
theorem decChar_encChar {n : Nat} (h : n < 64) : decChar (encChar n) = some n := by
  have key : ∀ m : Fin 64, decChar (encChar m.1) = some m.1 := by decide
  exact key ⟨n, h⟩

/-- Alphabet characters are never the padding character. -/
theorem encChar_ne_pad {n : Nat} (h : n < 64) : encChar n ≠ '=' := by
  have key : ∀ m : Fin 64, encChar m.1 ≠ '=' := by decide
  exact key ⟨n, h⟩

/-- Base64 decoding inverts base64 encoding on byte lists. -/
theorem b64decode_b64encode (bs : List Nat) (hb : ∀ x ∈ bs, x < 256) :
    b64decode (b64encode bs) = some bs := by
  have main : ∀ n, ∀ l : List Nat, l.length ≤ n → (∀ x ∈ l, x < 256) →
      b64decode (b64encode l) = some l := by
    intro n
    induction n with
    | zero =>
      intro l hlen _
      have hnil : l = [] := List.eq_nil_of_length_eq_zero (Nat.le_zero.mp hlen)
      subst hnil
      rfl
    | succ n ih =>
      intro l hlen hl
      rcases l with _ | ⟨a, _ | ⟨b, _ | ⟨c, rest⟩⟩⟩
      · rfl
      · have ha : a < 256 := hl a (by simp)
        have h1 : a / 4 < 64 := by omega
        have h2 : a % 4 * 16 < 64 := by omega
        simp [b64encode, b64decode, decChar_encChar h1, decChar_encChar h2]
        omega
      · have ha : a < 256 := hl a (by simp)
        have hb2 : b < 256 := hl b (by simp)
        have h1 : a / 4 < 64 := by omega
        have h2 : a % 4 * 16 + b / 16 < 64 := by omega
        have h3 : b % 16 * 4 < 64 := by omega
        simp [b64encode, b64decode, decChar_encChar h1, decChar_encChar h2,
          encChar_ne_pad h3, decChar_encChar h3]
        omega
      · have ha : a < 256 := hl a (by simp)
        have hb2 : b < 256 := hl b (by simp)
        have hc : c < 256 := hl c (by simp)
        have h1 : a / 4 < 64 := by omega
        have h2 : a % 4 * 16 + b / 16 < 64 := by omega
        have h3 : b % 16 * 4 + c / 64 < 64 := by omega
        have h4 : c % 64 < 64 := by omega
        have hrest : ∀ x ∈ rest, x < 256 := fun x hx => hl x (by simp [hx])
        have hlen2 : rest.length ≤ n := by
          simp only [List.length_cons] at hlen
          omega
        simp [b64encode, b64decode, decChar_encChar h1, decChar_encChar h2,
          encChar_ne_pad h3, decChar_encChar h3,
          encChar_ne_pad h4, decChar_encChar h4,
          ih rest hlen2 hrest]
        omega
  exact main bs.length bs le_rfl hb

/-- C3: `get_secret` checks the interactive-session secret store first,
then the process environment, returns the first value found (an
environment value counting as found when non-empty), raises
`MissingCredential` when the name is absent from both sources, and keeps
no cache: every call in a sequence re-resolves against the credential
state current at that call. -/
theorem c3_resolver_two_ordered_sources (s : Secrets) (name v : String) :
    (s.useStreamlitSecrets = true → s.stSecrets name = some v →
      get_secret s name = Except.ok v)
    ∧ ((s.useStreamlitSecrets = false ∨ s.stSecrets name = none) →
      s.osEnviron name = some v → v ≠ "" → get_secret s name = Except.ok v)
    ∧ ((s.useStreamlitSecrets = false ∨ s.stSecrets name = none) →
      s.osEnviron name = none →
      get_secret s name = Except.error (Err.missingCredential name))
    ∧ (∀ s2 : Secrets, resolve_sequence [s, s2] name =
        [get_secret s name, get_secret s2 name]) := by
  refine ⟨?_, ?_, ?_, fun s2 => rfl⟩
  · intro hu hst
    simp [get_secret, hu, hst]
  · intro hmiss henv hne
    have hnone : (if s.useStreamlitSecrets then s.stSecrets name else none) = none := by
      rcases hmiss with h | h <;> simp [h]
    simp [get_secret, hnone, henv, hne]
  · intro hmiss henv
    have hnone : (if s.useStreamlitSecrets then s.stSecrets name else none) = none := by
      rcases hmiss with h | h <;> simp [h]
    simp [get_secret, hnone, henv]

/-- C3 witness: with both sources populated the store value wins; with only
the environment populated its value is returned; with neither populated
the resolver fails with the missing-credential error. -/
theorem c3_resolver_witness :
    get_secret storeFirstSecrets "GROQ_API_KEY" = Except.ok "fromstore"
    ∧ get_secret sampleSecrets "GROQ_API_KEY" = Except.ok "key"
    ∧ get_secret noSecrets "GROQ_API_KEY" =
        Except.error (Err.missingCredential "GROQ_API_KEY")
    ∧ resolve_sequence [sampleSecrets, noSecrets] "GROQ_API_KEY" =
        [Except.ok "key", Except.error (Err.missingCredential "GROQ_API_KEY")] := by
  refine ⟨?_, ?_, ?_, ?_⟩
  · exact (c3_resolver_two_ordered_sources storeFirstSecrets "GROQ_API_KEY" "fromstore").1
      rfl rfl
  · exact (c3_resolver_two_ordered_sources sampleSecrets "GROQ_API_KEY" "key").2.1
      (Or.inl rfl) rfl (by decide)
  · exact (c3_resolver_two_ordered_sources noSecrets "GROQ_API_KEY" "x").2.2.1
      (Or.inl rfl) rfl
  · have h := ((c3_resolver_two_ordered_sources sampleSecrets "GROQ_API_KEY" "key").2.2.2)
      noSecrets
    rw [h]
    refine congrArg₂ (fun x y => [x, y]) ?_ ?_
    · exact (c3_resolver_two_ordered_sources sampleSecrets "GROQ_API_KEY" "key").2.1
        (Or.inl rfl) rfl (by decide)
    · exact (c3_resolver_two_ordered_sources noSecrets "GROQ_API_KEY" "x").2.2.1
        (Or.inl rfl) rfl

/-- C10: a name bound to the empty string in the interactive store resolves
to the empty string, while a name bound to the empty string in the process
environment raises the missing-credential error — emptiness is only
rejected for the environment source. -/
theorem c10_empty_value_asymmetry (s : Secrets) (name : String) :
    (s.useStreamlitSecrets = true → s.stSecrets name = some "" →
      get_secret s name = Except.ok "")
    ∧ ((s.useStreamlitSecrets = false ∨ s.stSecrets name = none) →
      s.osEnviron name = some "" →
      get_secret s name = Except.error (Err.missingCredential name)) := by
  constructor
  · intro hu hst
    simp [get_secret, hu, hst]
  · intro hmiss henv
    have hnone : (if s.useStreamlitSecrets then s.stSecrets name else none) = none := by
      rcases hmiss with h | h <;> simp [h]
    simp [get_secret, hnone, henv]

/-- C10 witness: the two concrete empty-value behaviours. -/
theorem c10_empty_value_witness :
    get_secret storeEmptySecrets "GROQ_API_KEY" = Except.ok ""
    ∧ get_secret envEmptySecrets "GROQ_API_KEY" =
        Except.error (Err.missingCredential "GROQ_API_KEY") :=
  ⟨(c10_empty_value_asymmetry storeEmptySecrets "GROQ_API_KEY").1 rfl rfl,
   (c10_empty_value_asymmetry envEmptySecrets "GROQ_API_KEY").2 (Or.inl rfl) rfl⟩

/-- C4: once its credential resolves, the transcriber maps a 200 response
whose JSON body lacks a `text` field to the empty string rather than
raising, and on any response it either returns a string or fails with the
upstream error carrying the response status and body. -/
theorem c4_transcriber_totality (s : Secrets) (file : UploadFile)
    (r : HttpResponse) (k : String)
    (hk : get_secret s "OPENAI_API_KEY" = Except.ok k) :
    (r.status_code = 200 → jsonFind r.json "text" = none →
      (transcribe_audio_func s file r).result = Except.ok "")
    ∧ ((∃ t, (transcribe_audio_func s file r).result = Except.ok t) ∨
      (transcribe_audio_func s file r).result =
        Except.error (Err.upstream r.status_code r.text)) := by
  constructor
  · intro h200 hmiss
    simp [transcribe_audio_func, hk, h200, jsonGet, hmiss]
  · by_cases h200 : r.status_code = 200
    · exact Or.inl ⟨jsonGet r.json "text" "", by simp [transcribe_audio_func, hk, h200]⟩
    · exact Or.inr (by simp [transcribe_audio_func, hk, h200])

/-- C4 witness: a 200 response with no `text` field transcribes to the
empty string. -/
theorem c4_transcriber_witness :
    (transcribe_audio_func sampleSecrets sampleFile ok200NoText).result =
      Except.ok "" :=
  (c4_transcriber_totality sampleSecrets sampleFile ok200NoText "key" rfl).1 rfl rfl

/-- C2: once its credential resolves, every stage adapter turns a non-200
upstream outcome into an upstream error carrying exactly the original
status code and body, unmodified, and issues exactly one upstream request
(no retry).  For the two Groq-backed stages the status error originates in
the SDK client, modelled by the oracle, and the adapter propagates it
untouched. -/
theorem c2_upstream_error_passthrough (s : Secrets) (file : UploadFile)
    (r rimg : HttpResponse) (groq : ChatRequest → Except Err String)
    (text ptext iprompt : String) :
    (∀ k, get_secret s "OPENAI_API_KEY" = Except.ok k → r.status_code ≠ 200 →
      (transcribe_audio_func s file r).result =
        Except.error (Err.upstream r.status_code r.text) ∧
      (transcribe_audio_func s file r).posts = 1)
    ∧ (∀ k st bd, get_secret s "GROQ_API_KEY" = Except.ok k →
      groq (emotionRequest text) = Except.error (Err.upstream st bd) →
      (detect_emotion_func s groq text).result = Except.error (Err.upstream st bd) ∧
      (detect_emotion_func s groq text).requests.length = 1)
    ∧ (∀ k st bd, get_secret s "GROQ_API_KEY" = Except.ok k →
      groq (promptGenRequest ptext) = Except.error (Err.upstream st bd) →
      (generate_image_prompt_func s groq ptext).result =
        Except.error (Err.upstream st bd) ∧
      (generate_image_prompt_func s groq ptext).requests.length = 1)
    ∧ (∀ k, get_secret s "CLIPDROP_API_KEY" = Except.ok k → rimg.status_code ≠ 200 →
      (generate_image_func s rimg iprompt).result =
        Except.error (Err.upstream rimg.status_code rimg.text) ∧
      (generate_image_func s rimg iprompt).posts = 1) := by
  refine ⟨?_, ?_, ?_, ?_⟩
  · intro k hk hstatus
    constructor <;> simp [transcribe_audio_func, hk, hstatus]
  · intro k st bd hk herr
    constructor <;> simp [detect_emotion_func, hk, herr, Except.map]
  · intro k st bd hk herr
    constructor <;> simp [generate_image_prompt_func, hk, herr, Except.map]
  · intro k hk hstatus
    constructor <;> simp [generate_image_func, hk, hstatus]

/-- C2 witness: a 500 status with body `boom` on the two httpx adapters and
a 502 SDK status error on the two Groq adapters each surface unmodified. -/
theorem c2_upstream_error_witness :
    (transcribe_audio_func sampleSecrets sampleFile err500).result =
      Except.error (Err.upstream 500 "boom")
    ∧ (detect_emotion_func sampleSecrets groqErr502 "reve").result =
      Except.error (Err.upstream 502 "bad gateway")
    ∧ (generate_image_prompt_func sampleSecrets groqErr502 "reve").result =
      Except.error (Err.upstream 502 "bad gateway")
    ∧ (generate_image_func sampleSecrets err500 "un prompt").result =
      Except.error (Err.upstream 500 "boom") := by
  have h := c2_upstream_error_passthrough sampleSecrets sampleFile err500 err500
    groqErr502 "reve" "reve" "un prompt"
  exact ⟨(h.1 "key" rfl (by decide)).1,
         (h.2.1 "key" 502 "bad gateway" rfl rfl).1,
         (h.2.2.1 "key" 502 "bad gateway" rfl rfl).1,
         (h.2.2.2 "key" rfl (by decide)).1⟩

/-- C5: on a 200 response, the image synthesizer returns the string
`data:image/png;base64,` followed by the base64 encoding of the raw
response bytes, and base64-decoding that payload yields exactly those
bytes. -/
theorem c5_image_data_uri_roundtrip (s : Secrets) (r : HttpResponse)
    (p k : String) (hk : get_secret s "CLIPDROP_API_KEY" = Except.ok k)
    (h200 : r.status_code = 200) (hbytes : ∀ x ∈ r.content, x < 256) :
    (generate_image_func s r p).result =
      Except.ok ("data:image/png;base64," ++ String.mk (b64encode r.content))
    ∧ b64decode (b64encode r.content) = some r.content :=
  ⟨by simp [generate_image_func, hk, h200],
   b64decode_b64encode r.content hbytes⟩

/-- C5 witness: the three raw bytes of `clip200` encode into a data URI
whose payload decodes back to them. -/
theorem c5_image_data_uri_witness :
    (generate_image_func sampleSecrets clip200 "un prompt").result =
      Except.ok ("data:image/png;base64," ++ String.mk (b64encode clip200.content))
    ∧ b64decode (b64encode clip200.content) = some clip200.content :=
  c5_image_data_uri_roundtrip sampleSecrets clip200 "un prompt" "key" rfl rfl
    (by decide)

/-- C6: the emotion classifier issues exactly one completion request with
temperature zero and a ten-token output ceiling, and for every completion
text the returned label is that text trimmed and lower-cased, with no
validation against the five known categories. -/
theorem c6_emotion_normalization (s : Secrets)
    (groq : ChatRequest → Except Err String) (text k : String)
    (hk : get_secret s "GROQ_API_KEY" = Except.ok k) :
    (detect_emotion_func s groq text).requests = [emotionRequest text]
    ∧ (emotionRequest text).temperature = 0
    ∧ (emotionRequest text).max_tokens = 10
    ∧ (∀ content, groq (emotionRequest text) = Except.ok content →
      (detect_emotion_func s groq text).result = Except.ok (pyLower (pyStrip content))) := by
  refine ⟨by simp [detect_emotion_func, hk], rfl, rfl, ?_⟩
  intro content hresp
  simp [detect_emotion_func, hk, hresp, Except.map]

/-- C6 witness: a completion text that is not one of the five categories is
passed through trimmed and lower-cased. -/
theorem c6_emotion_witness :
    (detect_emotion_func sampleSecrets groqBanana "reve").result =
      Except.ok "banana"
    ∧ (emotionRequest "reve").temperature = 0
    ∧ (emotionRequest "reve").max_tokens = 10 := by
  have h := c6_emotion_normalization sampleSecrets groqBanana "reve" "key" rfl
  have hres := h.2.2.2 "  BANANA  " rfl
  exact ⟨by rw [hres]; rfl, h.2.1, h.2.2.1⟩

/-- C7: the prompt generator issues one completion request with the same
model and message shape as the emotion classifier but a strictly higher
temperature and a strictly larger output-token ceiling, and returns the
completion text trimmed, an empty result included. -/
theorem c7_prompt_generator_contract (s : Secrets)
    (groq : ChatRequest → Except Err String) (text k : String)
    (hk : get_secret s "GROQ_API_KEY" = Except.ok k) :
    (promptGenRequest text).model = (emotionRequest text).model
    ∧ (promptGenRequest text).messages.map ChatMessage.role =
      (emotionRequest text).messages.map ChatMessage.role
    ∧ (emotionRequest text).temperature < (promptGenRequest text).temperature
    ∧ (emotionRequest text).max_tokens < (promptGenRequest text).max_tokens
    ∧ (generate_image_prompt_func s groq text).requests = [promptGenRequest text]
    ∧ (∀ content, groq (promptGenRequest text) = Except.ok content →
      (generate_image_prompt_func s groq text).result = Except.ok (pyStrip content)) := by
  refine ⟨rfl, rfl, by norm_num [emotionRequest, promptGenRequest],
    by norm_num [emotionRequest, promptGenRequest],
    by simp [generate_image_prompt_func, hk], ?_⟩
  intro content hresp
  simp [generate_image_prompt_func, hk, hresp, Except.map]

/-- C7 witness: an empty completion is returned as the empty prompt rather
than raised, and the sampling parameters strictly dominate the emotion
request. -/
theorem c7_prompt_generator_witness :
    (generate_image_prompt_func sampleSecrets groqEmpty "reve").result =
      Except.ok ""
    ∧ (emotionRequest "reve").temperature < (promptGenRequest "reve").temperature
    ∧ (emotionRequest "reve").max_tokens < (promptGenRequest "reve").max_tokens := by
  have h := c7_prompt_generator_contract sampleSecrets groqEmpty "reve" "key" rfl
  have hres := h.2.2.2.2.2 "" rfl
  exact ⟨by rw [hres]; rfl, h.2.2.1, h.2.2.2.1⟩

/-- C8: in a full `/dream-to-image` invocation where the transcription,
emotion and prompt stages all complete and only the image-synthesis
credential is missing, the missing-credential error surfaces exactly when
the image synthesizer is reached: all four stages appear in the invocation
order, the earlier three completed, and the image stage issues no upstream
request because its credential is resolved at invocation time. -/
theorem c8_missing_image_credential_late (w : World) (file : UploadFile)
    (t e p : String)
    (ht : (transcribe_audio_func w.secrets file w.stt).result = Except.ok t)
    (he : (detect_emotion_func w.secrets w.groq t).result = Except.ok e)
    (hp : (generate_image_prompt_func w.secrets w.groq t).result = Except.ok p)
    (hk : get_secret w.secrets "CLIPDROP_API_KEY" =
      Except.error (Err.missingCredential "CLIPDROP_API_KEY")) :
    (dream_to_image w file).result =
      Except.error (Err.missingCredential "CLIPDROP_API_KEY")
    ∧ (dream_to_image w file).stages =
      [StageTag.transcriber, StageTag.emotionClassifier, StageTag.promptGenerator,
       StageTag.imageSynthesizer]
    ∧ (generate_image_func w.secrets (w.clipdrop p) p).posts = 0 := by
  refine ⟨?_, ?_, ?_⟩ <;>
    simp [dream_to_image, ht, he, hp, generate_image_func, hk]

/-- C8 witness: with only `CLIPDROP_API_KEY` missing, the pipeline fails
with exactly that missing credential after all three earlier stages
completed. -/
theorem c8_missing_image_credential_witness :
    (dream_to_image clipdropMissingWorld sampleFile).result =
      Except.error (Err.missingCredential "CLIPDROP_API_KEY")
    ∧ (dream_to_image clipdropMissingWorld sampleFile).stages =
      [StageTag.transcriber, StageTag.emotionClassifier, StageTag.promptGenerator,
       StageTag.imageSynthesizer] := by
  have h := c8_missing_image_credential_late clipdropMissingWorld sampleFile
    "bonjour" (pyLower (pyStrip " Reponse ")) (pyStrip " Reponse ")
    rfl rfl rfl rfl
  exact ⟨h.1, h.2.1⟩

/-- C9: the temporary file backing the uploaded clip is deleted on every
exit path of an interactive pipeline invocation — success, short-circuit
or failure — the upload handle is closed, and the transcriber removes its
own temporary copy exactly when it created one (file-system removal is
modelled as succeeding, matching the best-effort `finally` blocks). -/
theorem c9_tempfile_released_every_path (w : World) (file : UploadFile)
    (s : Secrets) (file2 : UploadFile) (r : HttpResponse) :
    (app_pipeline w file).tmpRemoved = true
    ∧ (app_pipeline w file).handleClosed = true
    ∧ (transcribe_audio_func s file2 r).tmpRemoved =
      (transcribe_audio_func s file2 r).tmpCreated := by
  refine ⟨?_, ?_, ?_⟩
  · unfold app_pipeline
    repeat' split
    all_goals rfl
  · unfold app_pipeline
    repeat' split
    all_goals rfl
  · unfold transcribe_audio_func
    repeat' split
    all_goals rfl

/-- C1 counterexample: the claim quantifies over every pipeline invocation,
but the `/dream-to-image` endpoint does not short-circuit.  In a world
whose speech-to-text stage yields the empty transcript and whose prompt
stage yields the empty prompt, the endpoint still invokes the emotion
classifier, the prompt generator and the image synthesizer. -/
theorem c1_counterexample_dream_to_image :
    (transcribe_audio_func emptyTranscriptWorld.secrets sampleFile
      emptyTranscriptWorld.stt).result = Except.ok ""
    ∧ (generate_image_prompt_func emptyTranscriptWorld.secrets
      emptyTranscriptWorld.groq "").result = Except.ok ""
    ∧ (dream_to_image emptyTranscriptWorld sampleFile).stages =
      [StageTag.transcriber, StageTag.emotionClassifier, StageTag.promptGenerator,
       StageTag.imageSynthesizer] :=
  ⟨rfl, rfl, rfl⟩

/-- C1 (amended): only the interactive pipeline short-circuits — if the
transcription stage yields the empty transcript, no downstream stage is
invoked and the emotion/prompt/image results are all absent, and the image
synthesizer is never invoked on an empty prompt (the interactive pipeline
in fact never awaits it at all); the `/dream-to-image` endpoint performs no
short-circuiting. -/
theorem c1_interactive_short_circuit (w : World) (file : UploadFile) :
    ((transcribe_audio_func w.secrets file w.stt).result = Except.ok "" →
      (app_pipeline w file).stages = [StageTag.transcriber]
      ∧ (app_pipeline w file).result = Except.ok
        { transcription := "", emotion := none, prompt := none, image := none })
    ∧ StageTag.imageSynthesizer ∉ (app_pipeline w file).stages := by
  constructor
  · intro ht
    constructor <;> simp [app_pipeline, ht]
  · unfold app_pipeline
    repeat' split
    all_goals simp

/-- C1 witness: a run whose transcription is empty stops after the
transcription stage with every later field absent. -/
theorem c1_interactive_short_circuit_witness :
    (app_pipeline emptyTranscriptWorld sampleFile).stages = [StageTag.transcriber]
    ∧ (app_pipeline emptyTranscriptWorld sampleFile).result = Except.ok
      { transcription := "", emotion := none, prompt := none, image := none } :=
  (c1_interactive_short_circuit emptyTranscriptWorld sampleFile).1 rfl

end Dreammaker
